import Mathlib

/-
Verification of the loan-application decision pipeline
(backend/agents/decision_agents.py, backend/graph/agent_orchestrator.py,
backend/agents/underwriting_node.py, backend/services/mock_api.py).

Shallow embedding conventions:
* Python ints are `Int`; Python floats are exact rationals `ℚ` (float
  arithmetic embedded exactly; every comparison the code makes is on
  values with small exact representations).
* `dict.get(key, default)` on the application dict becomes an `Option`
  field read with `Option.getD`.
* `random.randint`/`random.random` draws are explicit parameters.
* `time.time()` based duration measurement is an explicit `elapsed_ms`
  parameter; it only flows into the `processing_time_ms` field.
* Python f-string numeric formatting (thousands separators, `:.1f`, ...)
  is abstracted by `pyFmtI`/`pyFmtQ`, which render the exact value; no
  claim depends on the rendered digits, only on which strings are built.
* Python exceptions are `Except String`.
-/

/-- Possible decisions from an agent (class AgentDecision). -/
inductive AgentDecision where
  | approve
  | reject
  | review
deriving DecidableEq, Repr

/-- The string value of the AgentDecision enum member. -/
def AgentDecision.value : AgentDecision → String
  | .approve => "approve"
  | .reject => "reject"
  | .review => "review"

/-- One value of a Python `details` dict (int, float, bool, str, nested dict, list). -/
inductive DetailVal where
  | i (n : Int)
  | q (v : ℚ)
  | b (v : Bool)
  | s (v : String)
  | dict (fields : List (String × DetailVal))
  | arr (items : List DetailVal)

/-- Result from agent evaluation (class AgentResult). -/
structure AgentResult where
  agent_name : String
  display_name : String
  agent_type : String
  score : Int
  decision : AgentDecision
  confidence : Int
  explanation : String
  details : List (String × DetailVal)
  processing_time_ms : Int := 0

/-- The application dict as the evaluators read it: every field is read with
`.get(key, default)`, so a missing key is `none`.  The numeric fields are
integers (models/schemas.py declares them `int`). -/
structure Application where
  mobile : Option String := none
  pan : Option String := none
  aadhaar : Option String := none
  loan_amount : Option Int := none
  tenure : Option Int := none
  income : Option Int := none

/-- Python `int(x)` on a float: truncation toward zero. -/
def pyInt (q : ℚ) : Int := if q < 0 then ⌈q⌉ else ⌊q⌋

/-- Python `round(x, 1)` (float rounding embedded as exact rational rounding). -/
def round1 (q : ℚ) : ℚ := (round (q * 10) : ℚ) / 10

/-- Python `round(x, 2)` (float rounding embedded as exact rational rounding). -/
def round2 (q : ℚ) : ℚ := (round (q * 100) : ℚ) / 100

/-- Abstraction of Python integer f-string formatting (drops `,` grouping). -/
def pyFmtI (n : Int) : String := toString n

/-- Abstraction of Python float f-string formatting: the exact value as text. -/
def pyFmtQ (q : ℚ) : String := toString q

/-- CPython raises OverflowError when a value of magnitude at least 2^1024
must become a float (int-to-float conversion, int/int true division, float
pow); a float product that overflows is instead a silent infinity.  The
half-ulp rounding at the exact boundary is not modelled; no input considered
lies within one ulp of 2^1024. -/
def pyOverflow (q : ℚ) : Prop := (2 : ℚ) ^ 1024 ≤ |q|

instance pyOverflow.instDecidable (q : ℚ) : Decidable (pyOverflow q) :=
  inferInstanceAs (Decidable ((2 : ℚ) ^ 1024 ≤ |q|))

attribute [irreducible] pyOverflow pyOverflow.instDecidable

/-- Python `"; ".join(issues) if issues else default`. -/
def explanationOf (issues : List String) (default : String) : String :=
  if issues.isEmpty then default else String.intercalate "; " issues

/-- The fixed score threshold function every component evaluator inlines
(`if score >= 70: APPROVE elif score >= 50: REVIEW else: REJECT`). -/
def thresholdDecision (score : Int) : AgentDecision :=
  if 70 ≤ score then .approve else if 50 ≤ score then .review else .reject

/-- Python `re.sub(r'[\s-]', '', s)`. -/
def stripSpaceHyphen (s : String) : String :=
  String.mk (s.data.filter (fun c => !(c.isWhitespace || c == '-')))

/-- Python `s.isdigit() and len(s) == n` (ASCII digits). -/
def isDigitsOfLen (s : String) (n : Nat) : Bool :=
  s.data.all Char.isDigit && s.length == n

/-- Whether `re.match(r"^[A-Z]{5}[0-9]{4}[A-Z]$", s)` succeeds. -/
def panRegexMatch (s : String) : Bool :=
  match s.data with
  | [a, b, c, d, e, w, x, y, z, f] =>
      [a, b, c, d, e, f].all (fun ch => 'A' ≤ ch && ch ≤ 'Z') &&
      [w, x, y, z].all Char.isDigit
  | _ => false

-- ============== Agent Alpha - Sales Validation ==============

namespace AgentAlpha

/-- The score after the three penalty blocks of AgentAlpha.evaluate
(decrements applied to the starting score 100), before the final
`max(0, score)` clamp. -/
def rawScore (app : Application) : Int :=
  let loan_amount := app.loan_amount.getD 0
  let income := app.income.getD 0
  let incomePenalty : Int :=
    if 0 < income then
      if (5 : ℚ) < (loan_amount : ℚ) / ((income : ℚ) * 12) then 30
      else if (4 : ℚ) < (loan_amount : ℚ) / ((income : ℚ) * 12) then 15
      else 0
    else 40
  let tenure := app.tenure.getD 0
  let tenurePenalty : Int := if tenure < 6 then 25 else if 360 < tenure then 15 else 0
  let amountPenalty : Int :=
    if loan_amount < 10000 then 30 else if 50000000 < loan_amount then 20 else 0
  100 - incomePenalty - tenurePenalty - amountPenalty

/-- The issues list AgentAlpha.evaluate accumulates, in append order. -/
def issues (app : Application) : List String :=
  let loan_amount := app.loan_amount.getD 0
  let income := app.income.getD 0
  let ratioQ : ℚ := (loan_amount : ℚ) / ((income : ℚ) * 12)
  (if 0 < income then
      if (5 : ℚ) < ratioQ then
        ["Loan amount is " ++ pyFmtQ ratioQ ++ "x annual income (recommended max 5x)"]
      else if (4 : ℚ) < ratioQ then
        ["Loan amount is " ++ pyFmtQ ratioQ ++ "x annual income (slightly high)"]
      else []
    else ["Income information not provided"]) ++
  (if app.tenure.getD 0 < 6 then ["Tenure too short (minimum 6 months)"]
   else if 360 < app.tenure.getD 0 then ["Tenure exceeds 30 years maximum"] else []) ++
  (if loan_amount < 10000 then
      ["Loan amount Rs." ++ pyFmtI loan_amount ++ " below minimum Rs.10,000"]
   else if 50000000 < loan_amount then
      ["Loan amount Rs." ++ pyFmtI loan_amount ++ " exceeds Rs.5 Crore limit"]
   else [])

/-- The details dict AgentAlpha.evaluate builds, in insertion order. -/
def details (app : Application) : List (String × DetailVal) :=
  let loan_amount := app.loan_amount.getD 0
  let income := app.income.getD 0
  (if 0 < income then
      [("loan_to_income_ratio", DetailVal.q (round2 ((loan_amount : ℚ) / ((income : ℚ) * 12))))]
    else []) ++
  [("tenure_months", DetailVal.i (app.tenure.getD 0)),
   ("loan_amount", DetailVal.i loan_amount)]

/-- AgentAlpha.evaluate. -/
def evaluate (app : Application) (elapsed_ms : Int) : AgentResult :=
  { agent_name := "AgentAlpha"
    display_name := "Sales Validator"
    agent_type := "sales_validation"
    score := max 0 (rawScore app)
    decision := thresholdDecision (rawScore app)
    confidence := min 95 (rawScore app)
    explanation := explanationOf (issues app) "Application validated successfully"
    details := details app
    processing_time_ms := elapsed_ms }

end AgentAlpha

-- ============== Agent Beta - KYC Verification ==============

namespace AgentBeta

/-- Determine PAN holder type from 4th character (AgentBeta._get_pan_type);
the out-of-range read cannot occur at the call site (the format matched). -/
def panTypeOf (pan : String) : String :=
  let c := (pan.data.getD 3 ' ').toUpper
  if c = 'P' then "Individual"
  else if c = 'C' then "Company"
  else if c = 'H' then "HUF"
  else if c = 'A' then "AOP"
  else if c = 'B' then "BOI"
  else if c = 'G' then "Government"
  else if c = 'J' then "Artificial Juridical Person"
  else if c = 'L' then "Local Authority"
  else if c = 'F' then "Firm"
  else if c = 'T' then "Trust"
  else "Unknown"

/-- The score after the three penalty blocks of AgentBeta.evaluate, before
the final `max(0, score)` clamp. -/
def rawScore (app : Application) : Int :=
  let pan := app.pan.getD ""
  let panPenalty : Int :=
    if pan = "" then 40 else if !panRegexMatch pan.toUpper then 40 else 0
  let cleanAadhaar := stripSpaceHyphen (app.aadhaar.getD "")
  let aadhaarPenalty : Int :=
    if cleanAadhaar = "" then 40
    else if !isDigitsOfLen cleanAadhaar 12 then 40
    else 0
  let cleanPhone := stripSpaceHyphen (app.mobile.getD "")
  let phonePenalty : Int :=
    if !(cleanPhone == "") && isDigitsOfLen cleanPhone 10 then 0 else 20
  100 - panPenalty - aadhaarPenalty - phonePenalty

/-- The issues list AgentBeta.evaluate accumulates. -/
def issues (app : Application) : List String :=
  let pan := app.pan.getD ""
  let cleanAadhaar := stripSpaceHyphen (app.aadhaar.getD "")
  let cleanPhone := stripSpaceHyphen (app.mobile.getD "")
  (if pan = "" then ["PAN number not provided"]
   else if !panRegexMatch pan.toUpper then ["Invalid PAN format: " ++ pan]
   else []) ++
  (if cleanAadhaar = "" then ["Aadhaar number not provided"]
   else if !isDigitsOfLen cleanAadhaar 12 then ["Invalid Aadhaar format (must be 12 digits)"]
   else []) ++
  (if !(cleanPhone == "") && isDigitsOfLen cleanPhone 10 then []
   else ["Invalid phone number format"])

/-- Python `clean_aadhaar[-4:]`. -/
def lastFour (s : String) : String := String.mk (s.data.drop (s.data.length - 4))

/-- The details dict AgentBeta.evaluate builds. -/
def details (app : Application) : List (String × DetailVal) :=
  let pan := app.pan.getD ""
  let cleanAadhaar := stripSpaceHyphen (app.aadhaar.getD "")
  let cleanPhone := stripSpaceHyphen (app.mobile.getD "")
  (if pan = "" then [("pan_verified", DetailVal.b false)]
   else if !panRegexMatch pan.toUpper then [("pan_verified", DetailVal.b false)]
   else [("pan_verified", DetailVal.b true), ("pan_type", DetailVal.s (panTypeOf pan))]) ++
  (if cleanAadhaar = "" then [("aadhaar_verified", DetailVal.b false)]
   else if !isDigitsOfLen cleanAadhaar 12 then [("aadhaar_verified", DetailVal.b false)]
   else [("aadhaar_verified", DetailVal.b true),
         ("aadhaar_masked", DetailVal.s ("XXXX-XXXX-" ++ lastFour cleanAadhaar))]) ++
  (if !(cleanPhone == "") && isDigitsOfLen cleanPhone 10 then
      [("phone_verified", DetailVal.b true)]
   else [("phone_verified", DetailVal.b false)])

/-- AgentBeta.evaluate. -/
def evaluate (app : Application) (elapsed_ms : Int) : AgentResult :=
  { agent_name := "AgentBeta"
    display_name := "KYC Verifier"
    agent_type := "kyc_verification"
    score := max 0 (rawScore app)
    decision := thresholdDecision (rawScore app)
    confidence := min 98 (rawScore app)
    explanation := explanationOf (issues app) "KYC verification successful"
    details := details app
    processing_time_ms := elapsed_ms }

end AgentBeta

-- ============== Agent Gamma - Credit Risk ==============

namespace AgentGamma

/-- AgentGamma._simulate_credit_score; `variance` stands for the
`random.randint(-50, 50)` draw. -/
def simulateCreditScore (app : Application) (variance : Int) : Int :=
  let income := app.income.getD 0
  let base : Int :=
    700 + (if 100000 ≤ income then 50
           else if 50000 ≤ income then 30
           else if 25000 ≤ income then 10
           else if income < 15000 then -50
           else 0)
  max 300 (min 900 (base + variance))

/-- The EMI AgentGamma.evaluate computes (reducing balance method at a fixed
12% annual rate; tenure defaults to 12, falling back to simple division for
non-positive tenure). -/
def emiOf (app : Application) : ℚ :=
  let loan_amount := app.loan_amount.getD 0
  let tenure := app.tenure.getD 12
  let monthly_rate : ℚ := 12 / 12 / 100
  if 0 < tenure ∧ 0 < monthly_rate then
    ((loan_amount : ℚ) * monthly_rate * (1 + monthly_rate) ^ tenure.toNat) /
      ((1 + monthly_rate) ^ tenure.toNat - 1)
  else (loan_amount : ℚ) / ((max tenure 1 : Int) : ℚ)

/-- Python `emi_ratio = (emi / income) * 100 if income > 0 else 100` with
`income = application.get("income", 1)`. -/
def emiPct (app : Application) : ℚ :=
  let income := app.income.getD 1
  if 0 < income then emiOf app / (income : ℚ) * 100 else 100

/-- The score after the two penalty blocks of AgentGamma.evaluate, before
the final `max(0, score)` clamp. -/
def rawScore (app : Application) (variance : Int) : Int :=
  let cs := simulateCreditScore app variance
  let creditPenalty : Int :=
    if cs < 550 then 50 else if cs < 650 then 30 else if cs < 700 then 15 else 0
  let emiPenalty : Int :=
    if 60 < emiPct app then 35
    else if 50 < emiPct app then 20
    else if 40 < emiPct app then 10
    else 0
  100 - creditPenalty - emiPenalty

/-- The issues list AgentGamma.evaluate accumulates. -/
def issues (app : Application) (variance : Int) : List String :=
  let cs := simulateCreditScore app variance
  (if cs < 550 then
      ["Very low credit score: " ++ pyFmtI cs ++ " (min 550 recommended)"]
   else if cs < 650 then ["Low credit score: " ++ pyFmtI cs ++ " (650+ preferred)"]
   else if cs < 700 then ["Below average credit score: " ++ pyFmtI cs]
   else []) ++
  (if 60 < emiPct app then
      ["EMI burden too high: " ++ pyFmtQ (emiPct app) ++ "% of income (max 60%)"]
   else if 50 < emiPct app then
      ["EMI burden elevated: " ++ pyFmtQ (emiPct app) ++ "% of income"]
   else if 40 < emiPct app then
      ["Moderate EMI burden: " ++ pyFmtQ (emiPct app) ++ "% of income"]
   else [])

/-- The details dict AgentGamma.evaluate builds. -/
def details (app : Application) (variance : Int) : List (String × DetailVal) :=
  let cs := simulateCreditScore app variance
  [("credit_score", DetailVal.i cs)] ++
  (if cs < 550 then [] else if cs < 650 then [] else if cs < 700 then []
   else [("credit_rating", DetailVal.s (if 750 ≤ cs then "Good" else "Fair"))]) ++
  [("estimated_emi", DetailVal.i (pyInt (emiOf app))),
   ("emi_to_income_ratio", DetailVal.q (round1 (emiPct app))),
   ("foir", DetailVal.q (round1 (emiPct app)))]

/-- AgentGamma.evaluate. -/
def evaluate (app : Application) (variance : Int) (elapsed_ms : Int) : AgentResult :=
  { agent_name := "AgentGamma"
    display_name := "Credit Analyst"
    agent_type := "credit_risk"
    score := max 0 (rawScore app variance)
    decision := thresholdDecision (rawScore app variance)
    confidence := min 90 (rawScore app variance)
    explanation := explanationOf (issues app variance)
      ("Credit assessment passed. Score: " ++ pyFmtI (simulateCreditScore app variance))
    details := details app variance
    processing_time_ms := elapsed_ms }

end AgentGamma

-- ============== Agent Delta - Income Analysis ==============

namespace AgentDelta

/-- The score after the three penalty blocks of AgentDelta.evaluate, before
the final `max(0, score)` clamp; `stability` stands for the
`random.randint(70, 100)` draw. -/
def rawScore (app : Application) (stability : Int) : Int :=
  let income := app.income.getD 0
  let loan_amount := app.loan_amount.getD 0
  let incomePenalty : Int :=
    if income ≤ 0 then 50
    else if income < 15000 then 40
    else if income < 25000 then 20
    else if income < 35000 then 10
    else 0
  let affordPenalty : Int := if income * 12 * 5 < loan_amount then 15 else 0
  let stabilityPenalty : Int := if stability < 75 then 15 else 0
  100 - incomePenalty - affordPenalty - stabilityPenalty

/-- The issues list AgentDelta.evaluate accumulates. -/
def issues (app : Application) (stability : Int) : List String :=
  let income := app.income.getD 0
  let loan_amount := app.loan_amount.getD 0
  (if income ≤ 0 then ["No income information provided"]
   else if income < 15000 then
      ["Income Rs." ++ pyFmtI income ++ "/month below minimum Rs.15,000"]
   else if income < 25000 then
      ["Income Rs." ++ pyFmtI income ++ "/month is on lower side"]
   else if income < 35000 then
      ["Moderate income level: Rs." ++ pyFmtI income ++ "/month"]
   else []) ++
  (if income * 12 * 5 < loan_amount then
      ["Loan exceeds recommended limit by Rs." ++ pyFmtI (loan_amount - income * 12 * 5)]
   else []) ++
  (if stability < 75 then ["Income stability appears lower than preferred"] else [])

/-- The details dict AgentDelta.evaluate builds. -/
def details (app : Application) (stability : Int) : List (String × DetailVal) :=
  let income := app.income.getD 0
  [("declared_income", DetailVal.i income), ("currency", DetailVal.s "INR")] ++
  (if income ≤ 0 then [] else if income < 15000 then [] else if income < 25000 then []
   else if income < 35000 then []
   else [("income_category", DetailVal.s (if 50000 ≤ income then "Good" else "Adequate"))]) ++
  [("annual_income", DetailVal.i (income * 12)),
   ("max_loan_recommended", DetailVal.i (income * 12 * 5)),
   ("income_stability_score", DetailVal.i stability)]

/-- AgentDelta.evaluate. -/
def evaluate (app : Application) (stability : Int) (elapsed_ms : Int) : AgentResult :=
  { agent_name := "AgentDelta"
    display_name := "Income Analyzer"
    agent_type := "income_analysis"
    score := max 0 (rawScore app stability)
    decision := thresholdDecision (rawScore app stability)
    confidence := min 85 (rawScore app stability)
    explanation := explanationOf (issues app stability)
      ("Income verified: Rs." ++ pyFmtI (app.income.getD 0) ++ "/month")
    details := details app stability
    processing_time_ms := elapsed_ms }

end AgentDelta

-- ============== Agent Epsilon - Fraud Detection ==============

namespace AgentEpsilon

/-- The fraud score of AgentEpsilon.evaluate: risk deductions from 100, then
the blacklist hit (drawn as `random.random() > 0.98`) force-sets it to 10.
`velocity` stands for the `random.random()` draw in [0,1), `doc_score` for
`random.randint(70, 100)`, `blacklist_draw` for the second `random.random()`. -/
def fraudScore (app : Application) (velocity : ℚ) (doc_score : Int)
    (blacklist_draw : ℚ) : Int :=
  let income := app.income.getD 0
  let loan_amount := app.loan_amount.getD 0
  let afterRound : Int := 100 - (if 0 < income ∧ income % 10000 = 0 then 5 else 0)
  let afterLoan : Int := afterRound - (if 0 < income ∧ income * 100 < loan_amount then 30 else 0)
  let afterVelocity : Int :=
    afterLoan - (if (95 : ℚ) / 100 < velocity then 40
                 else if (85 : ℚ) / 100 < velocity then 20
                 else 0)
  let afterDoc : Int := afterVelocity - (if doc_score < 75 then 25 else 0)
  if (98 : ℚ) / 100 < blacklist_draw then 10 else afterDoc

/-- The risk_flags list AgentEpsilon.evaluate accumulates. -/
def riskFlags (app : Application) (velocity : ℚ) (doc_score : Int)
    (blacklist_draw : ℚ) : List String :=
  let income := app.income.getD 0
  let loan_amount := app.loan_amount.getD 0
  (if 0 < income ∧ income * 100 < loan_amount then
      ["Unusual loan-to-income ratio detected"]
   else []) ++
  (if (95 : ℚ) / 100 < velocity then
      ["Multiple applications detected from same source"]
   else if (85 : ℚ) / 100 < velocity then ["Elevated application velocity"]
   else []) ++
  (if doc_score < 75 then ["Document anomalies detected - manual review needed"] else []) ++
  (if (98 : ℚ) / 100 < blacklist_draw then ["Match found in fraud database - HIGH RISK"] else [])

/-- The details dict AgentEpsilon.evaluate builds. -/
def details (app : Application) (velocity : ℚ) (doc_score : Int)
    (blacklist_draw : ℚ) : List (String × DetailVal) :=
  let income := app.income.getD 0
  [("round_income_flag", DetailVal.b (decide (0 < income ∧ income % 10000 = 0))),
   ("velocity_score", DetailVal.i (pyInt (velocity * 100))),
   ("document_score", DetailVal.i doc_score),
   ("blacklist_clear", DetailVal.b (!decide ((98 : ℚ) / 100 < blacklist_draw))),
   ("fraud_risk_score", DetailVal.i (100 - fraudScore app velocity doc_score blacklist_draw))]

/-- AgentEpsilon.evaluate. -/
def evaluate (app : Application) (velocity : ℚ) (doc_score : Int)
    (blacklist_draw : ℚ) (elapsed_ms : Int) : AgentResult :=
  { agent_name := "AgentEpsilon"
    display_name := "Fraud Detector"
    agent_type := "fraud_detection"
    score := max 0 (fraudScore app velocity doc_score blacklist_draw)
    decision := thresholdDecision (fraudScore app velocity doc_score blacklist_draw)
    confidence := min 92 (fraudScore app velocity doc_score blacklist_draw)
    explanation := explanationOf (riskFlags app velocity doc_score blacklist_draw)
      "No fraud indicators detected"
    details := details app velocity doc_score blacklist_draw
    processing_time_ms := elapsed_ms }

end AgentEpsilon

-- ========= Component evaluators under CPython float-exception semantics =========

/-- AgentAlpha.evaluate under CPython float-exception semantics.  Its only
float operation is `ratio = loan_amount / annual_income` (int/int true
division, evaluated only when income > 0), which raises OverflowError when
the quotient exceeds the double range; every other step is exact int
arithmetic and string work, so the evaluation completes with the verdict of
`AgentAlpha.evaluate`. -/
def AgentAlpha.evaluateExc (app : Application) (elapsed_ms : Int) :
    Except String AgentResult :=
  let loan_amount := app.loan_amount.getD 0
  let income := app.income.getD 0
  if 0 < income ∧ pyOverflow ((loan_amount : ℚ) / ((income : ℚ) * 12)) then
    Except.error "integer division result too large for a float"
  else Except.ok (AgentAlpha.evaluate app elapsed_ms)

/-- AgentGamma.evaluate under CPython float-exception semantics, with the
raise points in source evaluation order.  For tenure > 0 the EMI formula
`loan_amount * monthly_rate * (1+r)**tenure / ((1+r)**tenure - 1)` first
converts the int loan (OverflowError when out of float range), then computes
the float pow (OverflowError for tenure around 71334 and beyond), then
`emi_ratio = emi / income * 100` (for income > 0) converts the int income;
a numerator product out of float range is a silent infinity that raises only
at `int(emi)` in the details construction.  For tenure ≤ 0 the fallback
`loan_amount / max(tenure, 1)` is an int/int true division.  When none of
these raise, the evaluation completes with the verdict of
`AgentGamma.evaluate`. -/
def AgentGamma.evaluateExc (app : Application) (variance : Int)
    (elapsed_ms : Int) : Except String AgentResult :=
  let loan_amount := app.loan_amount.getD 0
  let tenure := app.tenure.getD 12
  let income := app.income.getD 1
  let monthly_rate : ℚ := 12 / 12 / 100
  if 0 < tenure then
    if pyOverflow (loan_amount : ℚ) then
      Except.error "int too large to convert to float"
    else if pyOverflow ((1 + monthly_rate) ^ tenure.toNat) then
      Except.error "Numerical result out of range"
    else if 0 < income ∧ pyOverflow (income : ℚ) then
      Except.error "int too large to convert to float"
    else if pyOverflow ((loan_amount : ℚ) * monthly_rate * (1 + monthly_rate) ^ tenure.toNat) then
      Except.error "cannot convert float infinity to integer"
    else Except.ok (AgentGamma.evaluate app variance elapsed_ms)
  else
    if pyOverflow (loan_amount : ℚ) then
      Except.error "integer division result too large for a float"
    else if 0 < income ∧ pyOverflow (income : ℚ) then
      Except.error "int too large to convert to float"
    else Except.ok (AgentGamma.evaluate app variance elapsed_ms)

-- ============== Agent Zeta - Sanction Decision ==============

/-- The fixed per-agent weight table of AgentZeta._calculate_weighted_score,
with the 0.1 default for unknown agent names. -/
def agentWeight (agent_name : String) : ℚ :=
  if agent_name = "AgentAlpha" then 15 / 100
  else if agent_name = "AgentBeta" then 20 / 100
  else if agent_name = "AgentGamma" then 25 / 100
  else if agent_name = "AgentDelta" then 15 / 100
  else if agent_name = "AgentEpsilon" then 25 / 100
  else 1 / 10

/-- Python `min` over a list; the empty case cannot occur at the call site
(it is only applied to a list first checked to be non-empty). -/
def listMin : List Int → Int
  | [] => 0
  | x :: rest => rest.foldl min x

namespace AgentZeta

/-- AgentZeta._calculate_weighted_score: the loop accumulating
`weighted_sum` and `total_weight`, then the guarded division. -/
def calculateWeightedScore (results : List AgentResult) : ℚ :=
  let acc := results.foldl
    (fun (p : ℚ × ℚ) r =>
      (p.1 + (r.score : ℚ) * agentWeight r.agent_name, p.2 + agentWeight r.agent_name))
    (0, 0)
  if 0 < acc.2 then acc.1 / acc.2 else 0

/-- Python `weighted_score = self._calculate_weighted_score(all_results) if
all_results else 0` in AgentZeta.evaluate. -/
def weightedScoreOf (all_results : List AgentResult) : ℚ :=
  if !all_results.isEmpty then calculateWeightedScore all_results else 0

/-- The decision-logic block of AgentZeta.evaluate (lines 580-607): the
chosen decision, explanation, and pre-clamp score. -/
def branchOf (all_results : List AgentResult) : AgentDecision × String × Int :=
  let weighted_score : ℚ := weightedScoreOf all_results
  let rejections := all_results.filter (fun r => decide (r.decision = AgentDecision.reject))
  let reviews := all_results.filter (fun r => decide (r.decision = AgentDecision.review))
  if !rejections.isEmpty then
      (AgentDecision.reject,
       "Rejected by: " ++ String.intercalate ", " (rejections.map (fun r => r.display_name)),
       listMin (rejections.map (fun r => r.score)))
    else if 2 ≤ reviews.length then
      (AgentDecision.review,
       "Manual review required. Flagged by: " ++
         String.intercalate ", " (reviews.map (fun r => r.display_name)),
       pyInt weighted_score)
    else if !reviews.isEmpty ∧ weighted_score < 70 then
      (AgentDecision.review,
       "Borderline case with score " ++ pyFmtQ weighted_score ++ ". Manual review recommended.",
       pyInt weighted_score)
    else if 70 ≤ weighted_score then
      (AgentDecision.approve,
       "All checks passed. Final score: " ++ pyFmtQ weighted_score ++ "/100. Loan approved.",
       pyInt weighted_score)
    else
      (AgentDecision.review,
       "Score " ++ pyFmtQ weighted_score ++ " below threshold. Manual review required.",
       pyInt weighted_score)

/-- AgentZeta.evaluate. -/
def evaluate (app : Application) (all_results : List AgentResult)
    (elapsed_ms : Int) : AgentResult :=
  let total_score : ℚ :=
    if !all_results.isEmpty then
      ((all_results.map (fun r => (r.score : ℚ))).sum) / (all_results.length : ℚ)
    else 0
  let weighted_score : ℚ := weightedScoreOf all_results
  let rejections := all_results.filter (fun r => decide (r.decision = AgentDecision.reject))
  let reviews := all_results.filter (fun r => decide (r.decision = AgentDecision.review))
  let approvals := all_results.filter (fun r => decide (r.decision = AgentDecision.approve))
  let branch := branchOf all_results
  { agent_name := "AgentZeta"
    display_name := "Sanction Authority"
    agent_type := "sanction_decision"
    score := max 0 (min 100 branch.2.2)
    decision := branch.1
    confidence := if !all_results.isEmpty then min 95 (pyInt weighted_score) else 0
    explanation := branch.2.1
    details :=
      [("average_score", DetailVal.q (round1 total_score)),
       ("weighted_score", DetailVal.q (round1 weighted_score)),
       ("total_agents", DetailVal.i all_results.length),
       ("rejections", DetailVal.i rejections.length),
       ("reviews", DetailVal.i reviews.length),
       ("approvals", DetailVal.i approvals.length),
       ("agent_breakdown", DetailVal.arr (all_results.map (fun r =>
          DetailVal.dict
            [("agent", DetailVal.s r.agent_name),
             ("display_name", DetailVal.s r.display_name),
             ("score", DetailVal.i r.score),
             ("decision", DetailVal.s r.decision.value)])))]
    processing_time_ms := elapsed_ms }

end AgentZeta

-- ============== Orchestrator (graph/agent_orchestrator.py) ==============

/-- The random draws consumed by one pipeline run (AgentGamma, AgentDelta,
AgentEpsilon in execution order). -/
structure RandomDraws where
  variance : Int
  stability : Int
  velocity : ℚ
  doc_score : Int
  blacklist_draw : ℚ

/-- The wall-clock durations each node measures. -/
structure Timings where
  ta : Int := 0
  tb : Int := 0
  tc : Int := 0
  td : Int := 0
  te : Int := 0
  tz : Int := 0

/-- AgentState of the LangGraph workflow (the fields the nodes read/write;
`agent_updates` entries are abbreviated to their `agent` name field). -/
structure AgentState where
  application_data : Application
  agent_results : List AgentResult
  current_agent : String
  status : String
  final_decision : Option String
  agent_updates : List String

/-- alpha_node. -/
def alpha_node (st : AgentState) (t : Int) : AgentState :=
  let result := AgentAlpha.evaluate st.application_data t
  { st with
    agent_results := st.agent_results ++ [result]
    current_agent := "AgentAlpha"
    agent_updates := st.agent_updates ++ ["AgentAlpha"]
    status := if result.decision = AgentDecision.reject then "FAIL" else st.status }

/-- beta_node. -/
def beta_node (st : AgentState) (t : Int) : AgentState :=
  let result := AgentBeta.evaluate st.application_data t
  { st with
    agent_results := st.agent_results ++ [result]
    current_agent := "AgentBeta"
    agent_updates := st.agent_updates ++ ["AgentBeta"]
    status := if result.decision = AgentDecision.reject then "FAIL" else st.status }

/-- gamma_node. -/
def gamma_node (st : AgentState) (variance : Int) (t : Int) : AgentState :=
  let result := AgentGamma.evaluate st.application_data variance t
  { st with
    agent_results := st.agent_results ++ [result]
    current_agent := "AgentGamma"
    agent_updates := st.agent_updates ++ ["AgentGamma"]
    status := if result.decision = AgentDecision.reject then "FAIL" else st.status }

/-- delta_node. -/
def delta_node (st : AgentState) (stability : Int) (t : Int) : AgentState :=
  let result := AgentDelta.evaluate st.application_data stability t
  { st with
    agent_results := st.agent_results ++ [result]
    current_agent := "AgentDelta"
    agent_updates := st.agent_updates ++ ["AgentDelta"]
    status := if result.decision = AgentDecision.reject then "FAIL" else st.status }

/-- epsilon_node. -/
def epsilon_node (st : AgentState) (velocity : ℚ) (doc_score : Int)
    (blacklist_draw : ℚ) (t : Int) : AgentState :=
  let result := AgentEpsilon.evaluate st.application_data velocity doc_score blacklist_draw t
  { st with
    agent_results := st.agent_results ++ [result]
    current_agent := "AgentEpsilon"
    agent_updates := st.agent_updates ++ ["AgentEpsilon"]
    status := if result.decision = AgentDecision.reject then "FAIL" else st.status }

/-- The status dict zeta_node maps the aggregator decision through
(`.get(..., "FAIL")` default unreachable: the map is total). -/
def finalStatusOf : AgentDecision → String
  | .approve => "SANCTIONED"
  | .reject => "REJECTED"
  | .review => "MANUAL_REVIEW"

/-- zeta_node. -/
def zeta_node (st : AgentState) (t : Int) : AgentState :=
  let result := AgentZeta.evaluate st.application_data st.agent_results t
  { st with
    agent_results := st.agent_results ++ [result]
    current_agent := "AgentZeta"
    final_decision := some result.decision.value
    status := finalStatusOf result.decision
    agent_updates := st.agent_updates ++ ["AgentZeta"] }

/-- route_after_agent. -/
def route_after_agent (st : AgentState) : String :=
  if st.status = "FAIL" then "end" else "continue"

/-- The response dict run_agent_workflow builds from the final state. -/
structure PipelineResult where
  status : String
  final_decision : String
  agent_results : List AgentResult
  agent_updates : List String

/-- The response-building tail of run_agent_workflow
(`final_state.get("final_decision", "reject")` etc.). -/
def mkResult (st : AgentState) : PipelineResult :=
  { status := st.status
    final_decision := st.final_decision.getD "reject"
    agent_results := st.agent_results
    agent_updates := st.agent_updates }

/-- The initial state run_agent_workflow builds. -/
def initState (app : Application) : AgentState :=
  { application_data := app
    agent_results := []
    current_agent := ""
    status := "PROCESSING"
    final_decision := none
    agent_updates := [] }

/-- run_agent_workflow: the compiled graph Alpha → Beta → Gamma → Delta →
Epsilon → Zeta, with `route_after_agent` deciding "continue"/"end" after
every component node (build_agent_graph's conditional edges). -/
def run_agent_workflow (app : Application) (rng : RandomDraws) (tms : Timings) :
    PipelineResult :=
  let st1 := alpha_node (initState app) tms.ta
  if route_after_agent st1 = "end" then mkResult st1 else
  let st2 := beta_node st1 tms.tb
  if route_after_agent st2 = "end" then mkResult st2 else
  let st3 := gamma_node st2 rng.variance tms.tc
  if route_after_agent st3 = "end" then mkResult st3 else
  let st4 := delta_node st3 rng.stability tms.td
  if route_after_agent st4 = "end" then mkResult st4 else
  let st5 := epsilon_node st4 rng.velocity rng.doc_score rng.blacklist_draw tms.te
  if route_after_agent st5 = "end" then mkResult st5 else
  mkResult (zeta_node st5 tms.tz)

/-- The component evaluator order of the graph. -/
def componentNames : List String :=
  ["AgentAlpha", "AgentBeta", "AgentGamma", "AgentDelta", "AgentEpsilon"]

/-- The verdict the k-th component evaluator produces in a run with the given
application and random draws. -/
def componentResult (app : Application) (rng : RandomDraws) (tms : Timings) :
    ℕ → AgentResult
  | 0 => AgentAlpha.evaluate app tms.ta
  | 1 => AgentBeta.evaluate app tms.tb
  | 2 => AgentGamma.evaluate app rng.variance tms.tc
  | 3 => AgentDelta.evaluate app rng.stability tms.td
  | _ => AgentEpsilon.evaluate app rng.velocity rng.doc_score rng.blacklist_draw tms.te

/-- The decision the k-th component evaluator produces. -/
def componentDecision (app : Application) (rng : RandomDraws) (tms : Timings)
    (k : ℕ) : AgentDecision :=
  (componentResult app rng tms k).decision

/-- The full five-component verdict list of a run that reaches the aggregator. -/
def componentResults (app : Application) (rng : RandomDraws) (tms : Timings) :
    List AgentResult :=
  [componentResult app rng tms 0, componentResult app rng tms 1,
   componentResult app rng tms 2, componentResult app rng tms 3,
   componentResult app rng tms 4]

-- ============== Orchestrator under exception semantics ==============

/-- A component evaluator as the node calls it, allowed to raise
(`Except.error` is an uncaught Python exception). -/
def EvalFn : Type := Application → Except String AgentResult

/-- A component node body under exception semantics.  The source nodes
contain no try/except, so an exception from `evaluate` propagates out of
the node unchanged. -/
def node_exc (agent : String) (ev : EvalFn) (st : AgentState) :
    Except String AgentState :=
  match ev st.application_data with
  | Except.error e => Except.error e
  | Except.ok result =>
      Except.ok { st with
        agent_results := st.agent_results ++ [result]
        current_agent := agent
        agent_updates := st.agent_updates ++ [agent]
        status := if result.decision = AgentDecision.reject then "FAIL" else st.status }

/-- run_agent_workflow under exception semantics, over arbitrary (possibly
raising) component evaluators `ev 0 .. ev 4`; neither the workflow driver
nor any node has a handler, so an evaluator error short-circuits the whole
call with that error. -/
def run_agent_workflow_exc (app : Application) (ev : ℕ → EvalFn) (tz : Int) :
    Except String PipelineResult :=
  match node_exc "AgentAlpha" (ev 0) (initState app) with
  | Except.error e => Except.error e
  | Except.ok st1 =>
    if route_after_agent st1 = "end" then Except.ok (mkResult st1) else
    match node_exc "AgentBeta" (ev 1) st1 with
    | Except.error e => Except.error e
    | Except.ok st2 =>
      if route_after_agent st2 = "end" then Except.ok (mkResult st2) else
      match node_exc "AgentGamma" (ev 2) st2 with
      | Except.error e => Except.error e
      | Except.ok st3 =>
        if route_after_agent st3 = "end" then Except.ok (mkResult st3) else
        match node_exc "AgentDelta" (ev 3) st3 with
        | Except.error e => Except.error e
        | Except.ok st4 =>
          if route_after_agent st4 = "end" then Except.ok (mkResult st4) else
          match node_exc "AgentEpsilon" (ev 4) st4 with
          | Except.error e => Except.error e
          | Except.ok st5 =>
            if route_after_agent st5 = "end" then Except.ok (mkResult st5) else
            Except.ok (mkResult (zeta_node st5 tz))

-- ====== Sequential workflow variant (underwriting_node.py, mock_api.py) ======

/-- Result dict of services/mock_api.py get_credit_score. -/
structure CreditScoreResult where
  pan : String
  credit_score : Int
  rating : String
  message : String

/-- get_credit_score: fixed score of 750, rating derived from it. -/
def get_credit_score (pan : String) : CreditScoreResult :=
  let FIXED_SCORE : Int := 750
  let rating : String :=
    if 750 ≤ FIXED_SCORE then "EXCELLENT"
    else if 700 ≤ FIXED_SCORE then "GOOD"
    else if 650 ≤ FIXED_SCORE then "FAIR"
    else if 600 ≤ FIXED_SCORE then "POOR"
    else "VERY_POOR"
  { pan := pan.toUpper
    credit_score := FIXED_SCORE
    rating := rating
    message := "Credit score: " ++ pyFmtI FIXED_SCORE ++ " (" ++ rating ++ ")" }

/-- A Python float EMI value: a finite value (carried exactly) or the silent
infinity a float product overflows to. -/
inductive EmiVal where
  | val (q : ℚ)
  | inf
deriving DecidableEq

/-- calculate_emi of underwriting_node.py under CPython float semantics, with
the raise points of `(principal * monthly_rate * (1+r)**n) / ((1+r)**n - 1)`
in evaluation order: `principal * monthly_rate` converts the int principal
(OverflowError "int too large to convert to float" when out of float range);
`(1 + monthly_rate) ** tenure_months` is a float pow (OverflowError with
errno 34, "Numerical result out of range", for tenure around 71334 and
beyond — CPython wraps it in an errno tuple, abbreviated here to its text);
the denominator `(1+r)^n - 1` is exactly zero at n = 0 (ZeroDivisionError,
"float division by zero"); an out-of-range numerator product is a silent
float infinity, returned as `EmiVal.inf`.  The guarded
`principal / tenure_months` simple-division branch is unreachable because
the monthly rate 0.01 is non-zero. -/
def calculate_emi (principal : Int) (tenure_months : Int) : Except String EmiVal :=
  let monthly_rate : ℚ := 12 / 12 / 100
  if monthly_rate = 0 then
    if (tenure_months : ℚ) = 0 then Except.error "float division by zero"
    else Except.ok (EmiVal.val ((principal : ℚ) / (tenure_months : ℚ)))
  else
    if pyOverflow (principal : ℚ) then
      Except.error "int too large to convert to float"
    else
      let growth : ℚ := (1 + monthly_rate) ^ (tenure_months : ℤ)
      if pyOverflow growth then Except.error "Numerical result out of range"
      else if growth - 1 = 0 then Except.error "float division by zero"
      else if pyOverflow ((principal : ℚ) * monthly_rate * growth) then
        Except.ok EmiVal.inf
      else Except.ok (EmiVal.val ((principal : ℚ) * monthly_rate * growth / (growth - 1)))

/-- The DTI comparison `emi > max_emi_allowed` on a float EMI: a float
infinity exceeds every finite bound. -/
def emiExceeds (emi : EmiVal) (max_emi_allowed : ℚ) : Bool :=
  match emi with
  | EmiVal.inf => true
  | EmiVal.val q => decide (max_emi_allowed < q)

/-- Rendering of a float EMI in messages and step data. -/
def EmiVal.text : EmiVal → String
  | EmiVal.val q => pyFmtQ q
  | EmiVal.inf => "inf"

/-- One entry of the sequential workflow's `steps` list. -/
structure StepResult where
  node : String
  result : String
  data : List (String × DetailVal)
  message : String

/-- The state fields underwriting_node reads (each via `.get`). -/
structure UWState where
  pan : Option String := none
  loan_amount : Option Int := none
  tenure : Option Int := none
  income : Option Int := none
  steps : List StepResult := []

/-- The state-update dict underwriting_node returns. -/
structure UWOutcome where
  status : String
  credit_score : Int
  steps : List StepResult
  error_message : Option String

/-- The error list the underwriting rules build (the three `errors.append`
sites of underwriting_node): credit score < 600, EMI above 50% of monthly
income, loan above 50× monthly income. -/
def uwErrors (st : UWState) (emi : EmiVal) : List String :=
  let loan_amount := st.loan_amount.getD 0
  let income := st.income.getD 0
  let credit := get_credit_score (st.pan.getD "")
  let max_emi_allowed : ℚ := (income : ℚ) * (1 / 2)
  (if credit.credit_score < 600 then
      ["Your credit score of " ++ pyFmtI credit.credit_score ++
       " is below our minimum requirement of 600"]
   else []) ++
  (if emiExceeds emi max_emi_allowed then
      ["Based on your income, your maximum affordable EMI is ₹" ++
       pyFmtQ max_emi_allowed ++ ", but the requested loan would require ₹" ++
       emi.text ++ " per month"]
   else []) ++
  (if income * 50 < loan_amount then
      ["Based on your income, you can borrow up to ₹" ++ pyFmtI (income * 50) ++
       ". Consider reducing your loan amount or showing additional income"]
   else [])

/-- The outcome of underwriting_node's except-branch: a caught error `e`. -/
def uwErrorOutcome (st : UWState) (e : String) : UWOutcome :=
  { status := "FAIL"
    credit_score := 0
    steps := st.steps ++
      [{ node := "underwriting", result := "FAIL"
         data := [("error", DetailVal.s e)]
         message := "We encountered an issue during credit assessment. Please try again." }]
    error_message := some ("Credit assessment error: " ++ e) }

/-- The outcome of underwriting_node when the three rules ran to completion
(the normal return path). -/
def uwRulesOutcome (st : UWState) (emi : EmiVal) : UWOutcome :=
  let loan_amount := st.loan_amount.getD 0
  let income := st.income.getD 0
  let credit := get_credit_score (st.pan.getD "")
  let max_emi_allowed : ℚ := (income : ℚ) * (1 / 2)
  let errors := uwErrors st emi
  let is_approved := errors.isEmpty
  { status := if is_approved then "SUCCESS" else "FAIL"
    credit_score := credit.credit_score
    steps := st.steps ++
      [{ node := "underwriting"
         result := if is_approved then "SUCCESS" else "FAIL"
         data :=
           [("credit_score", DetailVal.i credit.credit_score),
            ("credit_rating", DetailVal.s credit.rating),
            ("emi_calculated",
             match emi with
             | EmiVal.val q => DetailVal.q (round2 q)
             | EmiVal.inf => DetailVal.s "inf"),
            ("max_emi_allowed", DetailVal.q (round2 max_emi_allowed)),
            ("max_loan_allowed", DetailVal.i (income * 50)),
            ("dti_ratio",
             if 0 < income then
               match emi with
               | EmiVal.val q => DetailVal.q (round2 (q / (income : ℚ) * 100))
               | EmiVal.inf => DetailVal.s "inf"
             else DetailVal.q 0),
            ("interest_rate", DetailVal.s "12% p.a.")]
         message :=
           if is_approved then "Congratulations! Your credit assessment is approved"
           else String.intercalate "; " errors }]
    error_message :=
      if errors.isEmpty then none else some (String.intercalate "; " errors) }

/-- underwriting_node: the three rules (credit score ≥ 600, EMI ≤ 50% of
monthly income, loan ≤ 50× monthly income), with the surrounding try/except
turning any caught error — the EMI computation's ZeroDivisionError or
OverflowError, or the OverflowError of the int-to-float conversion in
`max_emi_allowed = income * 0.5` — into a FAIL outcome. -/
def underwriting_node (st : UWState) : UWOutcome :=
  match calculate_emi (st.loan_amount.getD 0) (st.tenure.getD 12) with
  | Except.error e => uwErrorOutcome st e
  | Except.ok emi =>
      if pyOverflow ((st.income.getD 0 : Int) : ℚ) then
        uwErrorOutcome st "int too large to convert to float"
      else uwRulesOutcome st emi

lemma underwriting_node_error (st : UWState) (e : String)
    (hemi : calculate_emi (st.loan_amount.getD 0) (st.tenure.getD 12) =
      Except.error e) :
    underwriting_node st = uwErrorOutcome st e := by
  unfold underwriting_node
  rw [hemi]

lemma underwriting_node_ok (st : UWState) (emi : EmiVal)
    (hemi : calculate_emi (st.loan_amount.getD 0) (st.tenure.getD 12) =
      Except.ok emi)
    (hinc : ¬ pyOverflow ((st.income.getD 0 : Int) : ℚ)) :
    underwriting_node st = uwRulesOutcome st emi := by
  unfold underwriting_node
  rw [hemi]
  exact if_neg hinc

-- ============== Auxiliary lemmas ==============

lemma thresholdDecision_max (s : Int) :
    thresholdDecision s = thresholdDecision (max 0 s) := by
  rcases le_or_lt 0 s with h | h
  · rw [max_eq_right h]
  · have h1 : ¬ (70 : Int) ≤ s := by omega
    have h2 : ¬ (50 : Int) ≤ s := by omega
    rw [max_eq_left h.le, thresholdDecision, if_neg h1, if_neg h2]
    rfl

/-- The per-evaluator consistency property of the spec: returned score in
[0,100] and returned decision equal to the fixed threshold function of the
returned score. -/
def scoreDecisionConsistent (r : AgentResult) : Prop :=
  0 ≤ r.score ∧ r.score ≤ 100 ∧ r.decision = thresholdDecision r.score

lemma consistent_of_raw (raw : Int) (hraw : raw ≤ 100) (r : AgentResult)
    (hs : r.score = max 0 raw) (hd : r.decision = thresholdDecision raw) :
    scoreDecisionConsistent r := by
  refine ⟨?_, ?_, ?_⟩
  · rw [hs]; exact le_max_left _ _
  · rw [hs]; exact max_le (by norm_num) hraw
  · rw [hs, hd]; exact thresholdDecision_max raw

lemma AgentAlpha.alphaRawScore_le_100 (app : Application) :
    AgentAlpha.rawScore app ≤ 100 := by
  simp only [AgentAlpha.rawScore]
  split_ifs <;> omega

lemma AgentBeta.betaRawScore_le_100 (app : Application) :
    AgentBeta.rawScore app ≤ 100 := by
  simp only [AgentBeta.rawScore]
  split_ifs <;> omega

lemma AgentGamma.gammaRawScore_le_100 (app : Application) (variance : Int) :
    AgentGamma.rawScore app variance ≤ 100 := by
  simp only [AgentGamma.rawScore]
  split_ifs <;> omega

lemma AgentDelta.deltaRawScore_le_100 (app : Application) (stability : Int) :
    AgentDelta.rawScore app stability ≤ 100 := by
  simp only [AgentDelta.rawScore]
  split_ifs <;> omega

lemma AgentEpsilon.fraudScore_le_100 (app : Application) (velocity : ℚ)
    (doc_score : Int) (blacklist_draw : ℚ) :
    AgentEpsilon.fraudScore app velocity doc_score blacklist_draw ≤ 100 := by
  simp only [AgentEpsilon.fraudScore]
  split_ifs <;> omega

-- ============== C6 ==============

/-- An application whose loan amount (10^309) exceeds the float range:
real AgentGamma.evaluate raises OverflowError at `loan_amount * monthly_rate`. -/
def c6OverflowApp : Application :=
  { loan_amount := some (10 ^ 309)
    tenure := some 12
    income := some 50000 }

/-- An application whose loan-to-annual-income quotient (10^320 / 12)
exceeds the float range: real AgentAlpha.evaluate raises OverflowError at
`loan_amount / annual_income`. -/
def c6RatioApp : Application :=
  { loan_amount := some (10 ^ 320)
    tenure := some 12
    income := some 1 }

/-- C6 counterexample: at a loan amount of 10^309 AgentGamma raises
OverflowError instead of returning a verdict, and at loan 10^320 with
income 1 AgentAlpha does too — so "every evaluator returns a score in
[0,100] for every application input" is false at these inputs: nothing is
returned at all. -/
theorem C6_counterexample :
    AgentGamma.evaluateExc c6OverflowApp 0 0 =
      Except.error "int too large to convert to float" ∧
    AgentAlpha.evaluateExc c6RatioApp 0 =
      Except.error "integer division result too large for a float" := by
  constructor
  · have hOv : pyOverflow (((10 : Int) ^ 309 : Int) : ℚ) := by
      rw [pyOverflow, abs_of_nonneg (by positivity)]
      push_cast
      norm_num
    simp only [AgentGamma.evaluateExc, c6OverflowApp, Option.getD_some]
    rw [if_pos (by norm_num : (0 : Int) < 12), if_pos hOv]
  · have hOv : pyOverflow ((((10 : Int) ^ 320 : Int) : ℚ) / ((((1 : Int)) : ℚ) * 12)) := by
      rw [pyOverflow, abs_of_nonneg (by positivity)]
      push_cast
      rw [le_div_iff (by norm_num)]
      norm_num
    simp only [AgentAlpha.evaluateExc, c6RatioApp, Option.getD_some]
    rw [if_pos ⟨by norm_num, hOv⟩]

/-- C6 as amended: whenever a component evaluator completes (under CPython
float-exception semantics), the returned verdict has a score in [0,100] and
a decision equal to the fixed threshold function of the returned score.
AgentBeta, AgentDelta and AgentEpsilon perform no float operation on the
application values and always complete; AgentAlpha and AgentGamma raise
OverflowError — returning nothing — for inputs beyond the float range, the
cases the original claim missed. -/
theorem C6_score_range_threshold_on_return (app : Application)
    (variance stability doc_score : Int) (velocity blacklist_draw : ℚ)
    (t1 t2 t3 t4 t5 : Int) :
    (∀ r, AgentAlpha.evaluateExc app t1 = Except.ok r → scoreDecisionConsistent r) ∧
    scoreDecisionConsistent (AgentBeta.evaluate app t2) ∧
    (∀ r, AgentGamma.evaluateExc app variance t3 = Except.ok r →
      scoreDecisionConsistent r) ∧
    scoreDecisionConsistent (AgentDelta.evaluate app stability t4) ∧
    scoreDecisionConsistent
      (AgentEpsilon.evaluate app velocity doc_score blacklist_draw t5) := by
  refine ⟨?_, consistent_of_raw _ (AgentBeta.betaRawScore_le_100 app) _ rfl rfl, ?_,
    consistent_of_raw _ (AgentDelta.deltaRawScore_le_100 app stability) _ rfl rfl,
    consistent_of_raw _
      (AgentEpsilon.fraudScore_le_100 app velocity doc_score blacklist_draw) _ rfl rfl⟩
  · intro r h
    simp only [AgentAlpha.evaluateExc] at h
    split_ifs at h
    injection h with h2
    exact h2 ▸ consistent_of_raw _ (AgentAlpha.alphaRawScore_le_100 app) _ rfl rfl
  · intro r h
    simp only [AgentGamma.evaluateExc] at h
    split_ifs at h <;>
      (injection h with h2
       exact h2 ▸
         consistent_of_raw _ (AgentGamma.gammaRawScore_le_100 app variance) _ rfl rfl)

-- ============== Aggregator lemmas ==============

lemma AgentZeta.decision_eval (app : Application) (rs : List AgentResult) (t : Int) :
    (AgentZeta.evaluate app rs t).decision = (AgentZeta.branchOf rs).1 := rfl

lemma AgentZeta.score_eval (app : Application) (rs : List AgentResult) (t : Int) :
    (AgentZeta.evaluate app rs t).score = max 0 (min 100 (AgentZeta.branchOf rs).2.2) := rfl

lemma foldl_min_bounds (lo hi : Int) :
    ∀ (rest : List Int) (x : Int), lo ≤ x → x ≤ hi →
      (∀ y ∈ rest, lo ≤ y ∧ y ≤ hi) →
      lo ≤ rest.foldl min x ∧ rest.foldl min x ≤ hi := by
  intro rest
  induction rest with
  | nil => intro x h1 h2 _; exact ⟨h1, h2⟩
  | cons y ys ih =>
    intro x h1 h2 hmem
    simp only [List.foldl_cons]
    refine ih (min x y) (le_min h1 (hmem y (by simp)).1)
      (le_trans (min_le_left _ _) h2) ?_
    intro z hz
    exact hmem z (by simp [hz])

lemma listMin_bounds (xs : List Int) (lo hi : Int) (hne : xs ≠ [])
    (h : ∀ x ∈ xs, lo ≤ x ∧ x ≤ hi) :
    lo ≤ listMin xs ∧ listMin xs ≤ hi := by
  match xs, hne with
  | x :: rest, _ =>
    simp only [listMin]
    have hx := h x (by simp)
    exact foldl_min_bounds lo hi rest x hx.1 hx.2 (fun y hy => h y (by simp [hy]))

lemma filter_reject_eq_nil {rs : List AgentResult}
    (h : ∀ r ∈ rs, r.decision ≠ AgentDecision.reject) :
    rs.filter (fun r => decide (r.decision = AgentDecision.reject)) = [] :=
  List.filter_eq_nil_iff.mpr (fun r hr => by simpa using h r hr)

-- ============== C1 ==============

/-- C1: for every verdict list passed to the aggregator (whose members, as
produced by the component evaluators, carry scores in [0,100]) that contains
at least one REJECT verdict, AgentZeta.evaluate decides REJECT regardless of
all other scores and decisions, and its reported score is the minimum score
among the rejecting verdicts. -/
theorem C1_aggregator_veto_law (app : Application) (rs : List AgentResult) (t : Int)
    (hrej : ∃ r ∈ rs, r.decision = AgentDecision.reject)
    (hrange : ∀ r ∈ rs, 0 ≤ r.score ∧ r.score ≤ 100) :
    (AgentZeta.evaluate app rs t).decision = AgentDecision.reject ∧
    (AgentZeta.evaluate app rs t).score =
      listMin ((rs.filter (fun r => decide (r.decision = AgentDecision.reject))).map
        (fun r => r.score)) := by
  obtain ⟨r0, hr0, hd0⟩ := hrej
  have hmem : r0 ∈ rs.filter (fun r => decide (r.decision = AgentDecision.reject)) :=
    List.mem_filter.mpr ⟨hr0, by simp [hd0]⟩
  have hne : rs.filter (fun r => decide (r.decision = AgentDecision.reject)) ≠ [] := by
    intro hnil
    rw [hnil] at hmem
    exact absurd hmem (List.not_mem_nil r0)
  have hb : (!(rs.filter (fun r => decide (r.decision = AgentDecision.reject))).isEmpty)
      = true := by
    simp [List.isEmpty_iff, hne]
  have hbranch : AgentZeta.branchOf rs =
      (AgentDecision.reject,
       "Rejected by: " ++ String.intercalate ", "
         ((rs.filter (fun r => decide (r.decision = AgentDecision.reject))).map
           (fun r => r.display_name)),
       listMin ((rs.filter (fun r => decide (r.decision = AgentDecision.reject))).map
         (fun r => r.score))) := by
    simp only [AgentZeta.branchOf]
    rw [if_pos hb]
  refine ⟨by rw [AgentZeta.decision_eval, hbranch], ?_⟩
  rw [AgentZeta.score_eval, hbranch]
  have hmapne :
      (rs.filter (fun r => decide (r.decision = AgentDecision.reject))).map
        (fun r => r.score) ≠ [] := by
    simpa [List.map_eq_nil_iff] using hne
  have hbd : ∀ x ∈ (rs.filter (fun r => decide (r.decision = AgentDecision.reject))).map
      (fun r => r.score), 0 ≤ x ∧ x ≤ 100 := by
    intro x hx
    obtain ⟨r, hrmem, rfl⟩ := List.mem_map.mp hx
    exact hrange r (List.mem_filter.mp hrmem).1
  have hbounds := listMin_bounds _ 0 100 hmapne hbd
  dsimp only
  omega

/-- Concrete verdict fixture for witnesses and counterexamples. -/
def mkVerdict (agent_name display_name : String) (score : Int)
    (decision : AgentDecision) : AgentResult :=
  { agent_name := agent_name
    display_name := display_name
    agent_type := "test"
    score := score
    decision := decision
    confidence := score
    explanation := ""
    details := [] }

/-- The spec example for the veto law: five APPROVE verdicts at score 100
plus one REJECT at score 40. -/
def zetaVetoList : List AgentResult :=
  [mkVerdict "AgentAlpha" "Sales Validator" 100 AgentDecision.approve,
   mkVerdict "AgentBeta" "KYC Verifier" 100 AgentDecision.approve,
   mkVerdict "AgentGamma" "Credit Analyst" 100 AgentDecision.approve,
   mkVerdict "AgentDelta" "Income Analyzer" 100 AgentDecision.approve,
   mkVerdict "AgentEpsilon" "Fraud Detector" 100 AgentDecision.approve,
   mkVerdict "AgentX" "Extra Check" 40 AgentDecision.reject]

/-- C1 witness: the veto law at the spec example, yielding REJECT at score 40. -/
theorem C1_witness :
    (AgentZeta.evaluate {} zetaVetoList 0).decision = AgentDecision.reject ∧
    (AgentZeta.evaluate {} zetaVetoList 0).score = 40 :=
  ⟨(C1_aggregator_veto_law {} zetaVetoList 0 (by decide) (by decide)).1,
   ((C1_aggregator_veto_law {} zetaVetoList 0 (by decide) (by decide)).2).trans (by decide)⟩

-- ============== C2 ==============

/-- C2: for every verdict list with zero REJECT verdicts and at least two
REVIEW verdicts, AgentZeta.evaluate decides REVIEW regardless of the
weighted score. -/
theorem C2_review_escalation (app : Application) (rs : List AgentResult) (t : Int)
    (hnorej : ∀ r ∈ rs, r.decision ≠ AgentDecision.reject)
    (hrev : 2 ≤ (rs.filter (fun r => decide (r.decision = AgentDecision.review))).length) :
    (AgentZeta.evaluate app rs t).decision = AgentDecision.review := by
  have hrejnil := filter_reject_eq_nil hnorej
  rw [AgentZeta.decision_eval]
  simp only [AgentZeta.branchOf, hrejnil, List.isEmpty_nil, Bool.not_true]
  rw [if_neg (by simp), if_pos hrev]

/-- Fixture for the review-escalation witness: two REVIEW, one APPROVE. -/
def zetaTwoReviewList : List AgentResult :=
  [mkVerdict "AgentAlpha" "Sales Validator" 60 AgentDecision.review,
   mkVerdict "AgentBeta" "KYC Verifier" 65 AgentDecision.review,
   mkVerdict "AgentGamma" "Credit Analyst" 100 AgentDecision.approve]

/-- C2 witness: two REVIEW verdicts and no REJECT yield REVIEW. -/
theorem C2_witness :
    (AgentZeta.evaluate {} zetaTwoReviewList 0).decision = AgentDecision.review :=
  C2_review_escalation {} zetaTwoReviewList 0 (by decide) (by decide)

-- ============== C3 ==============

/-- C3: for every non-empty verdict list with zero REJECT verdicts and at
most one REVIEW verdict, AgentZeta.evaluate decides APPROVE when the
weighted score is ≥ 70 and REVIEW otherwise; in particular it never decides
REJECT without a REJECT among the inputs. -/
theorem C3_no_veto_asymmetry (app : Application) (rs : List AgentResult) (t : Int)
    (hne : rs ≠ [])
    (hnorej : ∀ r ∈ rs, r.decision ≠ AgentDecision.reject)
    (hrev : (rs.filter (fun r => decide (r.decision = AgentDecision.review))).length ≤ 1) :
    (AgentZeta.evaluate app rs t).decision =
      (if 70 ≤ AgentZeta.calculateWeightedScore rs then AgentDecision.approve
       else AgentDecision.review) ∧
    (AgentZeta.evaluate app rs t).decision ≠ AgentDecision.reject := by
  have hrejnil := filter_reject_eq_nil hnorej
  have hws : AgentZeta.weightedScoreOf rs = AgentZeta.calculateWeightedScore rs := by
    simp [AgentZeta.weightedScoreOf, List.isEmpty_iff, hne]
  rw [AgentZeta.decision_eval]
  simp only [AgentZeta.branchOf, hrejnil, hws, List.isEmpty_nil, Bool.not_true]
  rw [if_neg (by simp), if_neg (by omega)]
  rcases le_or_lt 70 (AgentZeta.calculateWeightedScore rs) with h70 | h70
  · rw [if_neg (fun hc => absurd h70 (not_le.mpr hc.2)), if_pos h70, if_pos h70]
    exact ⟨rfl, fun h => nomatch h⟩
  · by_cases hrevnil :
        rs.filter (fun r => decide (r.decision = AgentDecision.review)) = []
    · rw [if_neg (by simp [hrevnil]), if_neg (not_le.mpr h70), if_neg (not_le.mpr h70)]
      exact ⟨rfl, fun h => nomatch h⟩
    · rw [if_pos ⟨by simp [List.isEmpty_iff, hrevnil], h70⟩, if_neg (not_le.mpr h70)]
      exact ⟨rfl, fun h => nomatch h⟩

/-- Fixture for the asymmetry witness: a single low-scoring REVIEW verdict
(weighted score 40 < 70, far below the REJECT band) and no REJECT. -/
def zetaOneReviewList : List AgentResult :=
  [mkVerdict "AgentAlpha" "Sales Validator" 40 AgentDecision.review]

/-- C3 witness: one REVIEW verdict at weighted score 40 yields REVIEW, not
REJECT. -/
theorem C3_witness :
    (AgentZeta.evaluate {} zetaOneReviewList 0).decision = AgentDecision.review ∧
    (AgentZeta.evaluate {} zetaOneReviewList 0).decision ≠ AgentDecision.reject := by
  have h := C3_no_veto_asymmetry {} zetaOneReviewList 0 (List.cons_ne_nil _ _)
    (by decide) (by decide)
  have hcalc : AgentZeta.calculateWeightedScore zetaOneReviewList = 40 := by
    simp [AgentZeta.calculateWeightedScore, agentWeight, zetaOneReviewList, mkVerdict]
  refine ⟨h.1.trans ?_, h.2⟩
  rw [hcalc, if_neg (by norm_num)]

-- ============== C4 ==============

lemma agentWeight_pos (agent_name : String) : 0 < agentWeight agent_name := by
  unfold agentWeight
  split_ifs <;> norm_num

lemma calculateWeightedScore_foldl (rs : List AgentResult) (a b : ℚ) :
    rs.foldl
      (fun (p : ℚ × ℚ) r =>
        (p.1 + (r.score : ℚ) * agentWeight r.agent_name, p.2 + agentWeight r.agent_name))
      (a, b)
    = (a + (rs.map (fun r => (r.score : ℚ) * agentWeight r.agent_name)).sum,
       b + (rs.map (fun r => agentWeight r.agent_name)).sum) := by
  induction rs generalizing a b with
  | nil => simp
  | cons r rest ih =>
    simp only [List.foldl_cons, List.map_cons, List.sum_cons, ih, Prod.mk.injEq]
    exact ⟨by ring, by ring⟩

lemma weightSum_pos (rs : List AgentResult) (hne : rs ≠ []) :
    0 < (rs.map (fun r => agentWeight r.agent_name)).sum := by
  match rs, hne with
  | r :: rest, _ =>
    simp only [List.map_cons, List.sum_cons]
    have h2 : 0 ≤ (rest.map (fun x => agentWeight x.agent_name)).sum := by
      refine List.sum_nonneg ?_
      intro x hx
      obtain ⟨y, _, rfl⟩ := List.mem_map.mp hx
      exact (agentWeight_pos _).le
    have h1 := agentWeight_pos r.agent_name
    linarith

/-- C4: the weighted score is Σ(score·weight)/Σ(weight) over exactly the
verdicts present, with the fixed weight table (Alpha 0.15, Beta 0.20,
Gamma 0.25, Delta 0.15, Epsilon 0.25), default weight 0.10 for unknown
agent names, and 0 for the empty list. -/
theorem C4_weighted_score_law (rs : List AgentResult) (hne : rs ≠ []) :
    agentWeight "AgentAlpha" = 15 / 100 ∧
    agentWeight "AgentBeta" = 20 / 100 ∧
    agentWeight "AgentGamma" = 25 / 100 ∧
    agentWeight "AgentDelta" = 15 / 100 ∧
    agentWeight "AgentEpsilon" = 25 / 100 ∧
    (∀ nm : String,
        nm ∉ ["AgentAlpha", "AgentBeta", "AgentGamma", "AgentDelta", "AgentEpsilon"] →
        agentWeight nm = 1 / 10) ∧
    AgentZeta.calculateWeightedScore [] = 0 ∧
    AgentZeta.calculateWeightedScore rs =
      ((rs.map (fun r => (r.score : ℚ) * agentWeight r.agent_name)).sum) /
        ((rs.map (fun r => agentWeight r.agent_name)).sum) := by
  refine ⟨by simp [agentWeight], by simp [agentWeight], by simp [agentWeight],
    by simp [agentWeight], by simp [agentWeight], ?_, by rfl, ?_⟩
  · intro nm hnm
    unfold agentWeight
    split_ifs with h1 h2 h3 h4 h5
    · exact absurd (by simp [h1]) hnm
    · exact absurd (by simp [h2]) hnm
    · exact absurd (by simp [h3]) hnm
    · exact absurd (by simp [h4]) hnm
    · exact absurd (by simp [h5]) hnm
    · rfl
  · rw [AgentZeta.calculateWeightedScore, calculateWeightedScore_foldl]
    simp only [zero_add]
    rw [if_pos (weightSum_pos rs hne)]

/-- Fixture for the weighted-score witness: two known evaluators, so the
normalization runs over 0.15 + 0.20 only. -/
def c4List : List AgentResult :=
  [mkVerdict "AgentAlpha" "Sales Validator" 80 AgentDecision.approve,
   mkVerdict "AgentBeta" "KYC Verifier" 90 AgentDecision.approve]

/-- C4 witness: the weighted score of the two-element list equals the
formula value (80·0.15 + 90·0.20)/0.35 = 600/7, and an unknown agent name
gets weight 0.10. -/
theorem C4_witness :
    AgentZeta.calculateWeightedScore c4List = 600 / 7 ∧
    agentWeight "AgentOmega" = 1 / 10 := by
  have h := C4_weighted_score_law c4List (List.cons_ne_nil _ _)
  refine ⟨(h.2.2.2.2.2.2.2).trans ?_, h.2.2.2.2.2.1 "AgentOmega" (by decide)⟩
  simp [c4List, mkVerdict, agentWeight]
  norm_num

-- ============== C5 ==============

/-- Fixture exhibiting the rounding discrepancy: weighted score
(70·0.15 + 71·0.20)/0.35 = 494/7 ≈ 70.571, which truncates to 70 but rounds
to 71. -/
def c5List : List AgentResult :=
  [mkVerdict "AgentAlpha" "Sales Validator" 70 AgentDecision.approve,
   mkVerdict "AgentBeta" "KYC Verifier" 71 AgentDecision.approve]

/-- C5 counterexample: on `c5List` the aggregator reports confidence 70
(Python `int` truncation of 494/7), while the claim's
`min(95, round(weighted score))` is 71: the claim is false at this input. -/
theorem C5_counterexample :
    (AgentZeta.evaluate {} c5List 0).confidence = 70 ∧
    min 95 (round (AgentZeta.weightedScoreOf c5List)) = 71 ∧
    (AgentZeta.evaluate {} c5List 0).confidence ≠
      min 95 (round (AgentZeta.weightedScoreOf c5List)) := by
  have hws : AgentZeta.weightedScoreOf c5List = 494 / 7 := by
    simp [AgentZeta.weightedScoreOf, AgentZeta.calculateWeightedScore, agentWeight,
      c5List, mkVerdict]
    norm_num
  have hconf : (AgentZeta.evaluate {} c5List 0).confidence
      = min 95 (pyInt (AgentZeta.weightedScoreOf c5List)) := rfl
  have htrunc : pyInt ((494 : ℚ) / 7) = 70 := by
    rw [pyInt, if_neg (by norm_num)]
    norm_num [Int.floor_eq_iff]
  have hround : round ((494 : ℚ) / 7) = 71 := by
    rw [round_eq]
    norm_num [Int.floor_eq_iff]
  refine ⟨?_, ?_, ?_⟩
  · rw [hconf, hws, htrunc]; rfl
  · rw [hws, hround]; rfl
  · rw [hconf, hws, htrunc, hround]; decide

/-- C5 as amended: for every verdict list the aggregator's confidence is
min(95, int(weighted score)) with Python `int` truncation toward zero (not
rounding to nearest), and 0 for the empty list. -/
theorem C5_confidence_truncation (app : Application) (rs : List AgentResult) (t : Int) :
    (AgentZeta.evaluate app rs t).confidence =
      if rs.isEmpty then 0 else min 95 (pyInt (AgentZeta.calculateWeightedScore rs)) := by
  cases rs <;> rfl

-- ============== C9 ==============

/-- The verdict fields the determinism property compares: everything except
the wall-clock `processing_time_ms`. -/
def verdictCore (r : AgentResult) :
    Int × AgentDecision × Int × String × List (String × DetailVal) :=
  (r.score, r.decision, r.confidence, r.explanation, r.details)

/-- C9: with identical application input and identical injected random
draws, repeated evaluations of AgentGamma, AgentDelta and AgentEpsilon
return identical verdicts (same score, decision, confidence, explanation
and details), even across different wall-clock timings. -/
theorem C9_deterministic_under_fixed_draws (app : Application)
    (variance stability doc_score : Int) (velocity blacklist_draw : ℚ)
    (t t2 : Int) :
    verdictCore (AgentGamma.evaluate app variance t) =
      verdictCore (AgentGamma.evaluate app variance t2) ∧
    verdictCore (AgentDelta.evaluate app stability t) =
      verdictCore (AgentDelta.evaluate app stability t2) ∧
    verdictCore (AgentEpsilon.evaluate app velocity doc_score blacklist_draw t) =
      verdictCore (AgentEpsilon.evaluate app velocity doc_score blacklist_draw t2) :=
  ⟨rfl, rfl, rfl⟩

-- ============== C7 ==============

lemma route_end_iff (st : AgentState) :
    (route_after_agent st = "end") ↔ st.status = "FAIL" := by
  unfold route_after_agent
  split_ifs with h
  · exact ⟨fun _ => h, fun _ => rfl⟩
  · exact ⟨fun hc => absurd hc (by decide), fun hs => absurd hs h⟩

/-- C7: in the 6-agent pipeline, if the first k component decisions are
non-REJECT and component k decides REJECT, the run ends with status FAIL
right after component k and no later evaluator (the aggregator included)
executes; if all five components decide non-REJECT, the aggregator runs
last and its decision maps APPROVE→SANCTIONED, REJECT→REJECTED,
REVIEW→MANUAL_REVIEW into the final status. -/
theorem C7_short_circuit_law (app : Application) (rng : RandomDraws) (tms : Timings)
    (k : ℕ) (hk : k < 5)
    (hbefore : ∀ j, j < k → componentDecision app rng tms j ≠ AgentDecision.reject) :
    (componentDecision app rng tms k = AgentDecision.reject →
      (run_agent_workflow app rng tms).status = "FAIL" ∧
      (run_agent_workflow app rng tms).agent_updates = componentNames.take (k + 1)) ∧
    ((∀ j, j < 5 → componentDecision app rng tms j ≠ AgentDecision.reject) →
      (run_agent_workflow app rng tms).agent_updates = componentNames ++ ["AgentZeta"] ∧
      (run_agent_workflow app rng tms).status =
        finalStatusOf
          (AgentZeta.evaluate app (componentResults app rng tms) tms.tz).decision) := by
  constructor
  · intro hkrej
    interval_cases k
    · have hA : (AgentAlpha.evaluate app tms.ta).decision = AgentDecision.reject := hkrej
      simp [run_agent_workflow, route_end_iff, alpha_node, initState, mkResult,
        componentNames, hA]
    · have h0 : (AgentAlpha.evaluate app tms.ta).decision ≠ AgentDecision.reject :=
        hbefore 0 (by omega)
      have hB : (AgentBeta.evaluate app tms.tb).decision = AgentDecision.reject := hkrej
      simp [run_agent_workflow, route_end_iff, alpha_node, beta_node, initState,
        mkResult, componentNames, h0, hB]
    · have h0 : (AgentAlpha.evaluate app tms.ta).decision ≠ AgentDecision.reject :=
        hbefore 0 (by omega)
      have h1 : (AgentBeta.evaluate app tms.tb).decision ≠ AgentDecision.reject :=
        hbefore 1 (by omega)
      have hC : (AgentGamma.evaluate app rng.variance tms.tc).decision =
        AgentDecision.reject := hkrej
      simp [run_agent_workflow, route_end_iff, alpha_node, beta_node, gamma_node,
        initState, mkResult, componentNames, h0, h1, hC]
    · have h0 : (AgentAlpha.evaluate app tms.ta).decision ≠ AgentDecision.reject :=
        hbefore 0 (by omega)
      have h1 : (AgentBeta.evaluate app tms.tb).decision ≠ AgentDecision.reject :=
        hbefore 1 (by omega)
      have h2 : (AgentGamma.evaluate app rng.variance tms.tc).decision ≠
        AgentDecision.reject := hbefore 2 (by omega)
      have hD : (AgentDelta.evaluate app rng.stability tms.td).decision =
        AgentDecision.reject := hkrej
      simp [run_agent_workflow, route_end_iff, alpha_node, beta_node, gamma_node,
        delta_node, initState, mkResult, componentNames, h0, h1, h2, hD]
    · have h0 : (AgentAlpha.evaluate app tms.ta).decision ≠ AgentDecision.reject :=
        hbefore 0 (by omega)
      have h1 : (AgentBeta.evaluate app tms.tb).decision ≠ AgentDecision.reject :=
        hbefore 1 (by omega)
      have h2 : (AgentGamma.evaluate app rng.variance tms.tc).decision ≠
        AgentDecision.reject := hbefore 2 (by omega)
      have h3 : (AgentDelta.evaluate app rng.stability tms.td).decision ≠
        AgentDecision.reject := hbefore 3 (by omega)
      have hE : (AgentEpsilon.evaluate app rng.velocity rng.doc_score
        rng.blacklist_draw tms.te).decision = AgentDecision.reject := hkrej
      simp [run_agent_workflow, route_end_iff, alpha_node, beta_node, gamma_node,
        delta_node, epsilon_node, initState, mkResult, componentNames, h0, h1, h2,
        h3, hE]
  · intro hall
    have h0 : (AgentAlpha.evaluate app tms.ta).decision ≠ AgentDecision.reject :=
      hall 0 (by omega)
    have h1 : (AgentBeta.evaluate app tms.tb).decision ≠ AgentDecision.reject :=
      hall 1 (by omega)
    have h2 : (AgentGamma.evaluate app rng.variance tms.tc).decision ≠
      AgentDecision.reject := hall 2 (by omega)
    have h3 : (AgentDelta.evaluate app rng.stability tms.td).decision ≠
      AgentDecision.reject := hall 3 (by omega)
    have h4 : (AgentEpsilon.evaluate app rng.velocity rng.doc_score
      rng.blacklist_draw tms.te).decision ≠ AgentDecision.reject := hall 4 (by omega)
    simp [run_agent_workflow, route_end_iff, alpha_node, beta_node, gamma_node,
      delta_node, epsilon_node, zeta_node, initState, mkResult, componentNames,
      componentResults, componentResult, h0, h1, h2, h3, h4]

/-- Random draws fixture for the short-circuit witness. -/
def c7Rng : RandomDraws := ⟨0, 100, 0, 100, 0⟩

/-- C7 witness: on the all-fields-missing application the first evaluator
(AgentAlpha, score 5) rejects, the run status is FAIL, and only AgentAlpha
ever executed. -/
theorem C7_witness :
    (run_agent_workflow {} c7Rng {}).status = "FAIL" ∧
    (run_agent_workflow {} c7Rng {}).agent_updates = ["AgentAlpha"] :=
  (C7_short_circuit_law {} c7Rng {} 0 (by omega)
    (fun j hj => absurd hj (by omega))).1 (by decide)

-- ============== C8 ==============

/-- C8 as amended: if the pipeline reaches component evaluator k (every
earlier component returned a non-REJECT verdict) and evaluator k raises
error e, the 6-agent orchestrator does NOT catch it: no synthetic verdict
is produced and the error escapes run_agent_workflow to the caller. -/
theorem C8_fault_propagates (app : Application) (ev : ℕ → EvalFn) (tz : Int)
    (k : ℕ) (hk : k < 5) (e : String)
    (hok : ∀ j, j < k →
      ∃ r, ev j app = Except.ok r ∧ r.decision ≠ AgentDecision.reject)
    (herr : ev k app = Except.error e) :
    run_agent_workflow_exc app ev tz = Except.error e := by
  interval_cases k
  · simp [run_agent_workflow_exc, node_exc, initState, herr]
  · obtain ⟨r0, he0, hd0⟩ := hok 0 (by omega)
    simp [run_agent_workflow_exc, node_exc, initState, route_end_iff, he0, hd0, herr]
  · obtain ⟨r0, he0, hd0⟩ := hok 0 (by omega)
    obtain ⟨r1, he1, hd1⟩ := hok 1 (by omega)
    simp [run_agent_workflow_exc, node_exc, initState, route_end_iff, he0, hd0,
      he1, hd1, herr]
  · obtain ⟨r0, he0, hd0⟩ := hok 0 (by omega)
    obtain ⟨r1, he1, hd1⟩ := hok 1 (by omega)
    obtain ⟨r2, he2, hd2⟩ := hok 2 (by omega)
    simp [run_agent_workflow_exc, node_exc, initState, route_end_iff, he0, hd0,
      he1, hd1, he2, hd2, herr]
  · obtain ⟨r0, he0, hd0⟩ := hok 0 (by omega)
    obtain ⟨r1, he1, hd1⟩ := hok 1 (by omega)
    obtain ⟨r2, he2, hd2⟩ := hok 2 (by omega)
    obtain ⟨r3, he3, hd3⟩ := hok 3 (by omega)
    simp [run_agent_workflow_exc, node_exc, initState, route_end_iff, he0, hd0,
      he1, hd1, he2, hd2, he3, hd3, herr]

/-- A healthy application on which AgentAlpha approves. -/
def c8App : Application :=
  { mobile := some "9876543210"
    pan := some "ABCDE1234F"
    aadhaar := some "123456789012"
    loan_amount := some 500000
    tenure := some 24
    income := some 50000 }

/-- Evaluator bank where the first component runs the real AgentAlpha and
the second component raises an unexpected runtime error. -/
def c8Evals : ℕ → EvalFn := fun k =>
  if k = 0 then fun a => Except.ok (AgentAlpha.evaluate a 0)
  else fun _ => Except.error "boom"

/-- C8 counterexample: with AgentBeta raising "boom" on a healthy
application, run_agent_workflow returns that error — the exception escapes
to the caller instead of becoming a synthetic REJECT verdict, so the claim
is false at this input. -/
theorem C8_counterexample :
    run_agent_workflow_exc c8App c8Evals 0 = Except.error "boom" := by
  have hraw : AgentAlpha.rawScore c8App = 100 := by
    norm_num [AgentAlpha.rawScore, c8App]
  have hA : (AgentAlpha.evaluate c8App 0).decision ≠ AgentDecision.reject := by
    simp [AgentAlpha.evaluate, thresholdDecision, hraw]
  simp [run_agent_workflow_exc, node_exc, c8Evals, initState, route_end_iff, hA]

/-- Evaluator bank where every component raises. -/
def c8CrashEvals : ℕ → EvalFn := fun _ => fun _ => Except.error "crash"

/-- C8 witness (for the amended statement): a crash in the first component
escapes run_agent_workflow unchanged. -/
theorem C8_witness :
    run_agent_workflow_exc {} c8CrashEvals 0 = Except.error "crash" :=
  C8_fault_propagates {} c8CrashEvals 0 0 (by omega) "crash"
    (fun j hj => absurd hj (by omega)) rfl

-- ============== C10 ==============

lemma calculate_emi_error_cases (p t : Int) (e : String)
    (h : calculate_emi p t = Except.error e) :
    t = 0 ∨ pyOverflow (p : ℚ) ∨ pyOverflow ((1 + 12 / 12 / 100 : ℚ) ^ (t : ℤ)) := by
  simp only [calculate_emi] at h
  rw [if_neg (by norm_num : ¬((12 : ℚ) / 12 / 100 = 0))] at h
  by_cases hp : pyOverflow ((p : Int) : ℚ)
  · exact Or.inr (Or.inl hp)
  rw [if_neg hp] at h
  by_cases hg : pyOverflow ((1 + 12 / 12 / 100 : ℚ) ^ (t : ℤ))
  · exact Or.inr (Or.inr hg)
  rw [if_neg hg] at h
  by_cases hz : ((1 : ℚ) + 12 / 12 / 100) ^ (t : ℤ) - 1 = 0
  · left
    have h2 : ((1 : ℚ) + 12 / 12 / 100) ^ (t : ℤ) =
        ((1 : ℚ) + 12 / 12 / 100) ^ ((0 : ℤ)) := by
      rw [zpow_zero]
      linarith
    have h3 := zpow_right_injective₀ (by norm_num : (0 : ℚ) < 1 + 12 / 12 / 100)
      (by norm_num : ((1 : ℚ) + 12 / 12 / 100) ≠ 1) h2
    exact_mod_cast h3
  · rw [if_neg hz] at h
    split_ifs at h

/-- C10 as amended: the underwriting credit-score rejection branch is
unreachable — get_credit_score always returns 750 ≥ 600 — and a FAIL
outcome of underwriting_node arises only from the EMI-to-income rule (a
float-infinite EMI exceeds every affordable bound), the loan-cap rule, or
a caught float-range error: ZeroDivisionError at tenure 0, or OverflowError
when the loan or the income exceeds the float range or (1.01)^tenure
overflows; never from the credit-score check. -/
theorem C10_underwriting_rules (st : UWState)
    (h : (underwriting_node st).status = "FAIL") :
    (get_credit_score (st.pan.getD "")).credit_score = 750 ∧
    ¬ ((get_credit_score (st.pan.getD "")).credit_score < 600) ∧
    (st.tenure.getD 12 = 0 ∨
     pyOverflow (st.loan_amount.getD 0 : ℚ) ∨
     pyOverflow ((1 + 12 / 12 / 100 : ℚ) ^ (st.tenure.getD 12 : ℤ)) ∨
     pyOverflow (st.income.getD 0 : ℚ) ∨
     (∃ emi : EmiVal,
        calculate_emi (st.loan_amount.getD 0) (st.tenure.getD 12) = Except.ok emi ∧
          (emiExceeds emi ((st.income.getD 0 : ℚ) * (1 / 2)) = true ∨
           st.income.getD 0 * 50 < st.loan_amount.getD 0))) := by
  refine ⟨rfl, by norm_num [get_credit_score], ?_⟩
  rcases hemi : calculate_emi (st.loan_amount.getD 0) (st.tenure.getD 12) with e | emi
  · rcases calculate_emi_error_cases _ _ _ hemi with h0 | h1 | h2
    · exact Or.inl h0
    · exact Or.inr (Or.inl h1)
    · exact Or.inr (Or.inr (Or.inl h2))
  · by_cases hinc : pyOverflow (st.income.getD 0 : ℚ)
    · exact Or.inr (Or.inr (Or.inr (Or.inl hinc)))
    refine Or.inr (Or.inr (Or.inr (Or.inr ⟨emi, rfl, ?_⟩)))
    by_cases hd : emiExceeds emi ((st.income.getD 0 : ℚ) * (1 / 2)) = true
    · exact Or.inl hd
    by_cases hc : st.income.getD 0 * 50 < st.loan_amount.getD 0
    · exact Or.inr hc
    exfalso
    rw [underwriting_node_ok st emi hemi hinc] at h
    have hst : (uwRulesOutcome st emi).status =
        if (uwErrors st emi).isEmpty then "SUCCESS" else "FAIL" := rfl
    have hd2 : emiExceeds emi ((st.income.getD 0 : ℚ) * 2⁻¹) = false := by
      rw [show ((2 : ℚ)⁻¹) = 1 / 2 by norm_num]
      exact Bool.eq_false_iff.mpr hd
    have herr : uwErrors st emi = [] := by
      simp [uwErrors, get_credit_score, hd2, hc]
    rw [hst, herr] at h
    simp at h

/-- A state with tenure 0: the EMI annuity formula divides by
(1.01)^0 − 1 = 0. -/
def c10ZeroTenure : UWState :=
  { pan := some "ABCDE1234F"
    loan_amount := some 100000
    tenure := some 0
    income := some 1000000 }

/-- A state with tenure 100000: the float pow (1.01)**100000 overflows. -/
def c10Overflow : UWState :=
  { pan := some "ABCDE1234F"
    loan_amount := some 100000
    tenure := some 100000
    income := some 1000000 }

lemma pow_overflow_100000 :
    pyOverflow ((1 + 12 / 12 / 100 : ℚ) ^ ((100000 : Int) : ℤ)) := by
  have hb : ((1 : ℚ) + 12 / 12 / 100) = 101 / 100 := by norm_num
  have hcast : ((100000 : Int) : ℤ) = ((100000 : ℕ) : ℤ) := by norm_num
  rw [pyOverflow, hb, hcast, zpow_natCast,
    abs_of_nonneg (by positivity : (0 : ℚ) ≤ (101 / 100) ^ (100000 : ℕ))]
  have h70 : (2 : ℚ) ≤ (101 / 100) ^ (70 : ℕ) := by norm_num
  calc (2 : ℚ) ^ 1024 ≤ (2 : ℚ) ^ (1428 : ℕ) := by
        exact pow_le_pow_right (by norm_num) (by norm_num)
    _ ≤ ((101 / 100 : ℚ) ^ (70 : ℕ)) ^ (1428 : ℕ) := by
        exact pow_le_pow_left (by norm_num) h70 1428
    _ = (101 / 100 : ℚ) ^ (99960 : ℕ) := by rw [← pow_mul]
    _ ≤ (101 / 100 : ℚ) ^ (100000 : ℕ) := by
        exact pow_le_pow_right (by norm_num) (by norm_num)

lemma calculate_emi_100000_overflow :
    calculate_emi 100000 100000 = Except.error "Numerical result out of range" := by
  simp only [calculate_emi]
  rw [if_neg (by norm_num : ¬((12 : ℚ) / 12 / 100 = 0))]
  rw [if_neg (show ¬ pyOverflow (((100000 : Int)) : ℚ) by
        rw [pyOverflow, abs_of_nonneg (by positivity)]
        norm_num)]
  rw [if_pos pow_overflow_100000]

/-- C10 counterexample: two inputs at which the original failure-mode
enumeration is false.  At tenure 0 the node FAILs through the caught
ZeroDivisionError; at tenure 100000 it FAILs through the caught
OverflowError of (1.01)**tenure — in both runs tenure-specific errors, with
the loan-cap rule not violated (loan ≤ 50×income) and the EMI rule never
evaluated, so "can only fail via the EMI rule or the loan-cap rule" does
not hold. -/
theorem C10_counterexample :
    ((underwriting_node c10ZeroTenure).status = "FAIL" ∧
     (underwriting_node c10ZeroTenure).error_message =
       some "Credit assessment error: float division by zero" ∧
     c10ZeroTenure.loan_amount.getD 0 ≤ c10ZeroTenure.income.getD 0 * 50) ∧
    ((underwriting_node c10Overflow).status = "FAIL" ∧
     (underwriting_node c10Overflow).error_message =
       some "Credit assessment error: Numerical result out of range" ∧
     c10Overflow.tenure.getD 12 ≠ 0 ∧
     c10Overflow.loan_amount.getD 0 ≤ c10Overflow.income.getD 0 * 50) := by
  have hemi0 : calculate_emi 100000 0 = Except.error "float division by zero" := by
    simp only [calculate_emi]
    rw [if_neg (by norm_num : ¬((12 : ℚ) / 12 / 100 = 0))]
    rw [if_neg (show ¬ pyOverflow (((100000 : Int)) : ℚ) by
          rw [pyOverflow, abs_of_nonneg (by positivity)]
          norm_num)]
    rw [if_neg (show ¬ pyOverflow ((1 + 12 / 12 / 100 : ℚ) ^ ((0 : Int) : ℤ)) by
          rw [pyOverflow, zpow_zero, abs_of_nonneg (by norm_num)]
          norm_num)]
    rw [if_pos (by norm_num [zpow_zero])]
  have h0 : underwriting_node c10ZeroTenure =
      uwErrorOutcome c10ZeroTenure "float division by zero" :=
    underwriting_node_error c10ZeroTenure _ hemi0
  have h1 : underwriting_node c10Overflow =
      uwErrorOutcome c10Overflow "Numerical result out of range" :=
    underwriting_node_error c10Overflow _ calculate_emi_100000_overflow
  refine ⟨⟨?_, ?_, by norm_num [c10ZeroTenure]⟩,
    ⟨?_, ?_, by norm_num [c10Overflow], by norm_num [c10Overflow]⟩⟩
  · rw [h0]
    rfl
  · rw [h0]
    rfl
  · rw [h1]
    rfl
  · rw [h1]
    rfl

/-- A state that fails underwriting through the income rules: zero income
with a 100000 loan over 12 months. -/
def c10FailState : UWState :=
  { pan := some "ABCDE1234F"
    loan_amount := some 100000
    tenure := some 12
    income := some 0 }

/-- C10 witness (for the amended statement): on the zero-income state the
node FAILs, the credit score is 750 (not below 600), and the failure is
attributable to the EMI or loan-cap rule (no float-range error occurs). -/
theorem C10_witness :
    (get_credit_score (c10FailState.pan.getD "")).credit_score = 750 ∧
    ¬ ((get_credit_score (c10FailState.pan.getD "")).credit_score < 600) ∧
    (c10FailState.tenure.getD 12 = 0 ∨
     pyOverflow (c10FailState.loan_amount.getD 0 : ℚ) ∨
     pyOverflow ((1 + 12 / 12 / 100 : ℚ) ^ (c10FailState.tenure.getD 12 : ℤ)) ∨
     pyOverflow (c10FailState.income.getD 0 : ℚ) ∨
     (∃ emi : EmiVal,
        calculate_emi (c10FailState.loan_amount.getD 0) (c10FailState.tenure.getD 12) =
          Except.ok emi ∧
          (emiExceeds emi ((c10FailState.income.getD 0 : ℚ) * (1 / 2)) = true ∨
           c10FailState.income.getD 0 * 50 < c10FailState.loan_amount.getD 0))) := by
  have hinc : ¬ pyOverflow ((0 : Int) : ℚ) := by
    rw [pyOverflow, Int.cast_zero, abs_zero]
    norm_num
  have h : (underwriting_node c10FailState).status = "FAIL" := by
    rcases hemi : calculate_emi (c10FailState.loan_amount.getD 0)
        (c10FailState.tenure.getD 12) with e | emi
    · rw [underwriting_node_error c10FailState e hemi]
      rfl
    · rw [underwriting_node_ok c10FailState emi hemi hinc]
      have hcap : uwErrors c10FailState emi ≠ [] := by
        intro hnil
        have : ("Based on your income, you can borrow up to ₹" ++ pyFmtI 0 ++
            ". Consider reducing your loan amount or showing additional income") ∈
            uwErrors c10FailState emi := by
          simp [uwErrors, c10FailState, get_credit_score]
        rw [hnil] at this
        exact absurd this (List.not_mem_nil _)
      have hst : (uwRulesOutcome c10FailState emi).status =
          if (uwErrors c10FailState emi).isEmpty then "SUCCESS" else "FAIL" := rfl
      rw [hst, if_neg (by simpa [List.isEmpty_iff] using hcap)]
  exact C10_underwriting_rules c10FailState h
